import Mathlib

/-!
Verification of the deterministic generative engine and behavior state machine
of the Auralia virtual-companion repository.

The definitions below are shallow embeddings of the TypeScript source:
* `MossPrime`   — the seeded math module (`initField`, `mix64`, `fibFast`,
  `prng`, `hash`; source file `part_003`).
* `Genome`      — `computeGenome` and the breeding-partner genome from the
  main app component (source file `part_009`).
* `Evolution`   — `evolution.ts` (trinity aspects, traits, breeding).
* `Consciousness` — the emotion cascade of the consciousness engine
  (source file `part_000`).
* `Behavior`    — the `useGuardianAI` timed state machine
  (`guardianBehaviorStubs.tsx`), including an operational model of the
  surrounding effect/timer lifecycle.

JavaScript BigInt values are modelled as `Nat` (they are never negative in
the embedded code paths), with `% 2 ^ 64` exactly where the source masks.
JavaScript floating-point numbers are modelled as `Rat`; where a conversion
from BigInt to double matters (`Number(sum)` in the PRNG) the IEEE-754
round-to-nearest-even conversion is modelled explicitly (`jsNumberOfNat`).
-/

namespace MossPrime

/-- The three fixed 60-digit constants (source `part_003`, lines 12-14). -/
def RED : String := "113031491493585389543778774590997079619617525721567332336510"

def BLACK : String := "011235831459437077415617853819099875279651673033695493257291"

def BLUE : String := "012776329785893036118967145479098334781325217074992143965631"

/-- `toDigits`: convert a string of decimal digits to the list of its digit
values (`charCodeAt - 48`).  The source throws on non-digits; it is only
applied to the three all-digit constants, where no throw can occur. -/
def toDigits (s : String) : List ℕ :=
  s.data.map (fun ch => ch.toNat - 48)

/-- `mix64`: the Murmur3-inspired 64-bit finalizer.  The source works on
JavaScript BigInt (arbitrary precision) and masks to 64 bits only at the
end, exactly as done here. -/
def mix64 (x0 : ℕ) : ℕ :=
  let x1 := x0 ^^^ 0x9e3779b97f4a7c15
  let x2 := x1 ^^^ (x1 >>> 30)
  let x3 := x2 * 0xbf58476d1ce4e5b9
  let x4 := x3 ^^^ (x3 >>> 27)
  let x5 := x4 * 0x94d049bb133111eb
  let x6 := x5 ^^^ (x5 >>> 31)
  x6 % 2 ^ 64

/-- `interleave3`: interleave three strings character by character, up to the
shortest length. -/
def interleave3 (a b c : String) : String :=
  let n := min a.length (min b.length c.length)
  String.mk ((List.range n).foldr
    (fun i acc => a.data.getD i ' ' :: b.data.getD i ' ' :: c.data.getD i ' ' :: acc) [])

/-- The hex-digit table of `base10ToHex`. -/
def hexTable : List Char := "0123456789abcdef".data

/-- One step of the rolling accumulator in `base10ToHex`:
`acc = ((acc * 17 + (charCode - 48)) >>> 0) & 0xffffffff`.  The JavaScript
`>>> 0` is ToUint32, i.e. reduction mod `2^32` (the char code may be an
arbitrary character of the seed name, so `charCode - 48` can be negative,
hence the computation runs over `Int` before the reduction). -/
def b10Step (acc : ℕ) (code : ℕ) : ℕ :=
  (((acc : ℤ) * 17 + ((code : ℤ) - 48)) % (2 ^ 32 : ℤ)).toNat

/-- `base10ToHex`: convert a digit string to a hex string via the rolling
accumulator; character `i` of the output is `hexTable[(acc_i ^ (i*7)) & 15]`. -/
def base10ToHex (s : String) : String :=
  String.mk ((s.data.map Char.toNat).foldl
    (fun (st : ℕ × ℕ × List Char) code =>
      let acc := b10Step st.1 code
      (acc, st.2.1 + 1, st.2.2 ++ [hexTable.getD ((acc ^^^ (st.2.1 * 7)) % 16) '0']))
    (0, 0, [])).2.2

/-- Parse a hex string (digits produced by `base10ToHex`) as a big integer,
as `BigInt('0x' + h)` does. -/
def parseHex (h : String) : ℕ :=
  h.data.foldl (fun v c =>
    16 * v + (if c.toNat ≥ 97 then c.toNat - 87 else c.toNat - 48)) 0

/-- The seed integer of `initField`: interleave the three constants,
append the seed name, pack into hex, parse as a big integer. -/
def seedBigInt (seedName : String) : ℕ :=
  parseHex (base10ToHex (String.append (interleave3 RED BLACK BLUE) seedName))

/-- The inner fast-doubling recursion `fn` of `fibFast` (source lines 74-83),
computing `(F k, F (k+1))` pairs over signed big integers. -/
def fibPair (k : ℕ) : ℤ × ℤ :=
  if h : k = 0 then (0, 1)
  else
    let p := fibPair (k / 2)
    let a := p.1
    let b := p.2
    let c := a * (2 * b - a)
    let d := a * a + b * b
    if k % 2 = 0 then (c, d) else (d, c + d)
termination_by k
decreasing_by exact Nat.div_lt_self (Nat.pos_of_ne_zero h) one_lt_two

/-- `fibFast(n)`: clamps negative input to 0 and runs the doubling
recursion (source: `BigInt(Math.max(0, Math.floor(n)))`). -/
def fibFast (n : ℤ) : ℤ × ℤ :=
  fibPair (max 0 n).toNat

/-- `fib(n) = fibFast(n)[0]`. -/
def fib (n : ℤ) : ℤ := (fibFast n).1

/-- `lucas(n)`: special-cases `n = 0`, otherwise `2·F(N+1) − F(N)` at
`N = max(0, n)`. -/
def lucas (n : ℤ) : ℤ :=
  if n = 0 then 2
  else
    let p := fibFast (max 0 n)
    2 * p.2 - p.1

/-- Floor of the base-2 logarithm, via an explicit fuel argument so that the
definition reduces structurally (the fuel `n` bounds the recursion depth). -/
def log2Fuel : ℕ → ℕ → ℕ
  | 0, _ => 0
  | fuel + 1, n => if n < 2 then 0 else log2Fuel fuel (n / 2) + 1

/-- Exact value of the JavaScript conversion `Number(n)` for a nonnegative
BigInt `n` in the double range: round to 53 significant bits, ties to even.
Values of at most 2^53 are exact; larger values round at the granularity
`2 ^ (bitlength - 53)`. -/
def jsNumberOfNat (n : ℕ) : ℕ :=
  if n ≤ 2 ^ 53 then n
  else
    let s := log2Fuel n n - 52
    let q := n / 2 ^ s
    let r := n % 2 ^ s
    if 2 * r < 2 ^ s then q * 2 ^ s
    else if 2 ^ s < 2 * r then (q + 1) * 2 ^ s
    else (if q % 2 = 0 then q else q + 1) * 2 ^ s

/-- The `Field` record produced by `initField`: the closure state of the
source object.  `s0`, `s1` are the two xorshift words; they are JavaScript
BigInt values that the source never masks to 64 bits after a step, so they
are unbounded naturals here as well. -/
structure Field where
  seed : String
  red : String
  black : String
  blue : String
  ring : List ℕ
  pulse : List ℕ
  seedBI : ℕ
  s0 : ℕ
  s1 : ℕ

/-- `initField` (source lines 99-177).  `pulse` and `ring` are computed from
the three constants only; the seed name enters only through `seedBI` and
the two PRNG state words. -/
def initField (seedName : String) : Field :=
  let r := toDigits RED
  let k := toDigits BLACK
  let b := toDigits BLUE
  let pulse := (List.range 60).map (fun i =>
    ((r.getD i 0) ^^^ (k.getD ((i * 7) % 60) 0) ^^^ (b.getD ((i * 13) % 60) 0)) % 10)
  let ring := (List.range 60).map (fun i => (r.getD i 0 + k.getD i 0 + b.getD i 0) % 10)
  let seedBI := seedBigInt seedName
  { seed := seedName
    red := RED
    black := BLACK
    blue := BLUE
    ring := ring
    pulse := pulse
    seedBI := seedBI
    s0 := mix64 seedBI
    s1 := mix64 (seedBI ^^^ 0xa5a5a5a5a5a5a5a5) }

/-- One call of the `prng` closure (source lines 125-137): xorshift128+-style
step of the two state words, then `Number((s0 + s1) & (2^64 - 1)) / 2^64`,
with the BigInt-to-double conversion modelled exactly. -/
def prng (f : Field) : ℚ × Field :=
  let x0 := f.s0
  let y := f.s1
  let x1 := x0 ^^^ (x0 <<< 23)
  let x2 := x1 ^^^ (x1 >>> 17)
  let x3 := x2 ^^^ (y ^^^ (y >>> 26))
  let sum := (y + x3) % 2 ^ 64
  ((jsNumberOfNat sum : ℚ) / 18446744073709551616, { f with s0 := y, s1 := x3 })

/-- The Field after one `prng()` call, its returned value discarded. -/
def advance (f : Field) : Field := (prng f).2

/-- One call of the `hash` closure (source lines 142-148): fold `mix64` over
the message characters, starting from the captured seed integer.  The body
reads only `seedBI` and assigns nothing, so the Field comes back unchanged;
all operations are on (big) integers. -/
def hash (f : Field) (msg : String) : ℕ × Field :=
  (msg.data.enum.foldl
    (fun h ic => mix64 (h ^^^ (ic.2.toNat + ic.1 * 1315423911))) f.seedBI, f)

end MossPrime

namespace Js

/-- JavaScript truncation toward zero (`Math.trunc`, the integer part used
by the `%` remainder on numbers). -/
def trunc (q : ℚ) : ℤ := if 0 ≤ q then ⌊q⌋ else ⌈q⌉

/-- The JavaScript `%` remainder on numbers: `x - m * trunc (x / m)`;
the result keeps the sign of the dividend. -/
def rem (x m : ℚ) : ℚ := x - m * trunc (x / m)

/-- `Math.round`: round half toward positive infinity. -/
def round (q : ℚ) : ℤ := ⌊q + 1 / 2⌋

end Js

namespace AuraliaApp

/-- `computeGenome` from the main app component (source `part_009`,
lines 593-600): weighted sums of the first-20 pulse/ring digits and the
current vitals, reduced `% 100` then clamped by `min 100`. -/
def computeGenome (f : MossPrime.Field) (energy curiosity bond health : ℚ) :
    ℚ × ℚ × ℚ :=
  let pulseSum : ℚ := (((f.pulse.take 20).sum : ℕ) : ℚ)
  let ringSum : ℚ := (((f.ring.take 20).sum : ℕ) : ℚ)
  let red60 := min 100 (Js.rem (pulseSum * 1.2 + energy * 0.7 + (100 - health) * 0.3) 100)
  let blue60 := min 100 (Js.rem (ringSum * 1.1 + curiosity * 0.6 + bond * 0.5) 100)
  let black60 := min 100 (Js.rem ((pulseSum + ringSum) * 0.8 + energy * 0.4 + bond * 0.6) 100)
  (red60, blue60, black60)

/-- The breeding partner's genome in `breedGuardian` (source `part_009`,
lines 1306-1312): derived by re-running `initField` on the partner name and
reading only pulse/ring digit sums. -/
def partnerGenome (partnerName : String) : ℚ × ℚ × ℚ :=
  let partnerField := MossPrime.initField partnerName
  let red60 := min 100
    ((Js.round (Js.rem ((((partnerField.pulse.take 20).sum : ℕ) : ℚ) * 1.5) 100) : ℚ))
  let blue60 := min 100
    ((Js.round (Js.rem ((((partnerField.ring.take 20).sum : ℕ) : ℚ) * 1.3) 100) : ℚ))
  let black60 := min 100
    ((Js.round (Js.rem (((((partnerField.pulse.take 10).sum +
      (partnerField.ring.take 10).sum : ℕ)) : ℚ) * 1.1) 100) : ℚ))
  (red60, blue60, black60)

end AuraliaApp

namespace Evolution

/-- The three trinity aspects of `evolution.ts`. -/
inductive TrinityAspect
  | sun
  | shadow
  | void
deriving DecidableEq, Repr

/-- The five evolution traits of `evolution.ts`. -/
inductive EvolutionTrait
  | radiant
  | umbral
  | cosmic
  | balanced
  | chaotic
deriving DecidableEq, Repr

/-- The breeding genome record `{red60, blue60, black60}`. -/
structure BreedingGenome where
  red60 : ℚ
  blue60 : ℚ
  black60 : ℚ
deriving DecidableEq

/-- The full evolution state computed by `calculateEvolution`. -/
structure EvolutionState where
  primaryAspect : TrinityAspect
  secondaryAspect : Option TrinityAspect
  trait : EvolutionTrait
  power : ℤ
  mutations : List String
deriving DecidableEq

/-- The genome value an aspect reads (`sun ↦ red60`, `shadow ↦ blue60`,
`void ↦ black60`), as in the `values` object of `calculateSecondaryAspect`. -/
def aspectValue (g : BreedingGenome) : TrinityAspect → ℚ
  | .sun => g.red60
  | .shadow => g.blue60
  | .void => g.black60

/-- `calculateTrinityAspect` (source lines 29-40): strict-dominance checks
first, then the `>=`-based tie chain in fixed order. -/
def calculateTrinityAspect (g : BreedingGenome) : TrinityAspect :=
  if g.red60 > g.blue60 ∧ g.red60 > g.black60 then .sun
  else if g.blue60 > g.red60 ∧ g.blue60 > g.black60 then .shadow
  else if g.black60 > g.red60 ∧ g.black60 > g.blue60 then .void
  else if g.red60 ≥ max g.blue60 g.black60 then .sun
  else if g.blue60 ≥ max g.red60 g.black60 then .shadow
  else .void

/-- `calculateSecondaryAspect` (source lines 45-62): among the two non-primary
aspects (in the insertion order sun, shadow, void), take the one with the
larger value (first wins ties, as `reduce` with `>` does); it qualifies only
if its value is at least 80% of the primary value. -/
def calculateSecondaryAspect (g : BreedingGenome) (primary : TrinityAspect) :
    Option TrinityAspect :=
  let others := [TrinityAspect.sun, TrinityAspect.shadow, TrinityAspect.void].filter
    (fun a => a ≠ primary)
  match others with
  | x :: rest =>
    let sec := rest.foldl (fun mx curr =>
      if aspectValue g curr > aspectValue g mx then curr else mx) x
    if aspectValue g sec ≥ aspectValue g primary * 0.8 then some sec else none
  | [] => none

/-- `calculateEvolutionTrait` (source lines 67-93): the "variance" is the
maximum absolute deviation of the three genome values from their mean. -/
def calculateEvolutionTrait (g : BreedingGenome) (primary : TrinityAspect)
    (secondary : Option TrinityAspect) : EvolutionTrait :=
  let avg := (g.red60 + g.blue60 + g.black60) / 3
  let variance := max |g.red60 - avg| (max |g.blue60 - avg| |g.black60 - avg|)
  if variance > 30 then .chaotic
  else if variance < 15 then .balanced
  else if secondary.isSome then .cosmic
  else if primary = .sun then .radiant
  else if primary = .shadow then .umbral
  else .cosmic

/-- `calculateEvolutionPower` (source lines 98-108). -/
def calculateEvolutionPower (g : BreedingGenome) : ℤ :=
  let total := g.red60 + g.blue60 + g.black60
  let mx := max g.red60 (max g.blue60 g.black60)
  let strength := total / 3
  let focus := mx / 100 * 100
  Js.round (strength * 0.6 + focus * 0.4)

/-- `generateMutations` (source lines 113-139), in exact push order. -/
def generateMutations (g : BreedingGenome) : List String :=
  (if g.red60 > 90 then ["Solar Flare - Enhanced vitality regeneration"] else []) ++
  (if g.red60 < 10 then ["Dim Ember - Requires less energy to sustain"] else []) ++
  (if g.blue60 > 90 then ["Crystal Form - Rigid structure, high defense"] else []) ++
  (if g.blue60 < 10 then ["Fluid Shape - Adaptive form, high flexibility"] else []) ++
  (if g.black60 > 90 then ["Void Touch - Deep cosmic connection"] else []) ++
  (if g.black60 < 10 then ["Clear Light - Reduced mystery, increased clarity"] else []) ++
  (if g.red60 > 85 ∧ g.black60 > 85 then ["Supernova - Explosive energy release"] else []) ++
  (if g.blue60 > 85 ∧ g.black60 > 85 then ["Dark Matter - Hidden mass and presence"] else []) ++
  (if g.red60 > 85 ∧ g.blue60 > 85 then ["Plasma Core - Structured energy form"] else [])

/-- `calculateEvolution` (source lines 144-158). -/
def calculateEvolution (g : BreedingGenome) : EvolutionState :=
  let primary := calculateTrinityAspect g
  let secondary := calculateSecondaryAspect g primary
  { primaryAspect := primary
    secondaryAspect := secondary
    trait := calculateEvolutionTrait g primary secondary
    power := calculateEvolutionPower g
    mutations := generateMutations g }

/-- The `mutate` helper of `breedGenomes`: add uniform noise in `[-15, 15)`
and clamp to `[0, 100]`. -/
def mutate (rv v : ℚ) : ℚ :=
  max 0 (min 100 (v + (rv - 0.5) * 30))

/-- `breedGenomes` (source lines 163-199).  The stateful `randomFn` is passed
as the four draws it makes, in source order: `r0`, `r1`, `r2` for the three
`mutate` calls (red, blue, black) and `r3` for the rare-boost check. -/
def breedGenomes (parent1 parent2 : BreedingGenome) (r0 r1 r2 r3 : ℚ) :
    BreedingGenome :=
  let inheritRed := (parent1.red60 + parent2.red60) / 2
  let inheritBlue := (parent1.blue60 + parent2.blue60) / 2
  let inheritBlack := (parent1.black60 + parent2.black60) / 2
  let red60 := mutate r0 inheritRed
  let blue60 := mutate r1 inheritBlue
  let black60 := mutate r2 inheritBlack
  let boosted :=
    if r3 < 0.05 then
      let maxParent1 := max parent1.red60 (max parent1.blue60 parent1.black60)
      let maxParent2 := max parent2.red60 (max parent2.blue60 parent2.black60)
      if maxParent1 = parent1.red60 ∨ maxParent2 = parent2.red60 then
        (min 100 (red60 + 10), blue60, black60)
      else if maxParent1 = parent1.blue60 ∨ maxParent2 = parent2.blue60 then
        (red60, min 100 (blue60 + 10), black60)
      else
        (red60, blue60, min 100 (black60 + 10))
    else (red60, blue60, black60)
  { red60 := (Js.round boosted.1 : ℚ)
    blue60 := (Js.round boosted.2.1 : ℚ)
    black60 := (Js.round boosted.2.2 : ℚ) }

end Evolution

namespace Consciousness

/-- The vitals record of the consciousness engine (source `part_000`). -/
structure GuardianStats where
  mood : ℚ
  energy : ℚ
  hunger : ℚ
  hygiene : ℚ

/-- The personality-traits record (source `part_000`). -/
structure PersonalityTraits where
  energy : ℚ
  curiosity : ℚ
  affection : ℚ
  independence : ℚ
  discipline : ℚ
  playfulness : ℚ
  social : ℚ
  temperament : String

/-- The expanded emotional states (source `part_000`). -/
inductive EmotionalState
  | serene
  | calm
  | curious
  | playful
  | contemplative
  | affectionate
  | restless
  | yearning
  | overwhelmed
  | withdrawn
  | ecstatic
  | melancholic
  | mischievous
  | protective
  | transcendent
deriving DecidableEq, Repr

/-- `calculateEmotionalResponse` (source `part_000`, lines 186-213): a
first-match priority cascade of threshold rules, in exact source order. -/
def calculateEmotionalResponse (vitals : GuardianStats)
    (traits : PersonalityTraits) : EmotionalState :=
  if vitals.hunger > 80 then .yearning
  else if vitals.hygiene < 30 then .overwhelmed
  else if vitals.energy < 20 then .withdrawn
  else if vitals.mood > 85 ∧ vitals.energy > 70 then .ecstatic
  else if vitals.mood > 75 ∧ traits.energy > 60 then .playful
  else if vitals.mood > 75 ∧ traits.curiosity > 60 then .curious
  else if vitals.mood > 60 ∧ traits.affection > 60 then .affectionate
  else if vitals.mood > 50 ∧ vitals.mood < 70 then .calm
  else if vitals.mood > 50 ∧ traits.curiosity > 70 then .contemplative
  else if vitals.mood < 40 then .melancholic
  else if vitals.energy > 60 ∧ vitals.mood < 50 then .restless
  else .serene

end Consciousness

namespace Behavior

/-- The AI modes of `useGuardianAI` (`guardianBehaviorStubs.tsx`). -/
inductive AIMode
  | idle
  | observing
  | focusing
  | playing
  | dreaming
deriving DecidableEq, Repr

/-- The transition probabilities of `AIBehaviorConfig.probabilities`. -/
structure AIProbs where
  idleToDream : ℚ
  idleToObserve : ℚ
  idleToFocus : ℚ

/-- `DEFAULT_AI_CONFIG.probabilities` (source lines 143-147). -/
def defaultProbs : AIProbs :=
  { idleToDream := 0.15, idleToObserve := 0.5, idleToFocus := 0.25 }

/-- The kinds of timer callbacks `useGuardianAI` schedules with `setTimeout`:
the idle re-arm (which calls `transitionToNextMode` again), and the four
state-completion callbacks. -/
inductive TimerAct
  | rearm
  | dreamEnd
  | observeEnd
  | focusToPlay
  | playEnd
deriving DecidableEq, Repr

/-- The branch structure of `transitionToNextMode` (source lines 396-438):
given the current mode, the stats and the single `Math.random()` draw, which
mode is entered (`setMode` target, or the unchanged mode) and which timer
callback is armed.  Duration draws do not influence the choice and are
omitted here. -/
def transitionChoice (p : AIProbs) (energy curiosity : ℚ) (mode : AIMode)
    (rand : ℚ) : AIMode × TimerAct :=
  if mode = .idle then
    if energy < 30 ∧ rand < p.idleToDream then (.dreaming, .dreamEnd)
    else if rand < p.idleToObserve then (.observing, .observeEnd)
    else if curiosity > 40 ∧ rand < p.idleToFocus + p.idleToObserve then
      (.focusing, .focusToPlay)
    else (.idle, .rearm)
  else (mode, .rearm)

/-- The mode/focus part of the hook state visible to C5. -/
structure AIView where
  mode : AIMode
  focusedSigil : Option ℕ
deriving DecidableEq, Repr

/-- Which callbacks a timer callback fired: `onDreamComplete`, the argument
passed to `onFocusChange` (if called), and whether `onPlay` was invoked. -/
structure CallbackLog where
  dreamCompleteFired : Bool
  focusChangeArg : Option (Option ℕ)
  playFired : Bool
deriving DecidableEq, Repr

/-- No callbacks fired. -/
def noCalls : CallbackLog :=
  { dreamCompleteFired := false, focusChangeArg := none, playFired := false }

/-- The body of each completion timer callback (source lines 405-429):
dream end returns to idle and fires `onDreamComplete`; observe end returns to
idle; the focusing timer moves to playing, picks sigil index
`Math.floor(rand * sigilPoints.length)`, sets the focus and fires
`onFocusChange` and `onPlay` if the point exists, and arms the play-end
timer; the play-end timer clears the focus, fires `onFocusChange(null)` and
returns to idle.  (`rearm` simply calls `transitionToNextMode` again, which
is modelled by `transitionChoice`.) -/
def runTimerAct (sigils : List ℕ) (act : TimerAct) (rand : ℚ) (v : AIView) :
    AIView × CallbackLog × Option TimerAct :=
  match act with
  | .rearm => (v, noCalls, none)
  | .dreamEnd =>
    ({ v with mode := .idle },
      { dreamCompleteFired := true, focusChangeArg := none, playFired := false }, none)
  | .observeEnd => ({ v with mode := .idle }, noCalls, none)
  | .focusToPlay =>
    let idx := (⌊rand * (sigils.length : ℚ)⌋).toNat
    match sigils.get? idx with
    | some sid =>
      ({ mode := .playing, focusedSigil := some sid },
        { dreamCompleteFired := false, focusChangeArg := some (some sid),
          playFired := true }, some .playEnd)
    | none => ({ v with mode := .playing }, noCalls, some .playEnd)
  | .playEnd =>
    ({ mode := .idle, focusedSigil := none },
      { dreamCompleteFired := false, focusChangeArg := some none,
        playFired := false }, none)

/-- The full hook state for the timer-lifecycle model of C6: the mode and
focus, the timer id stored in `timerRef`, the list of live (scheduled,
neither fired nor cancelled) timeouts with their callbacks, a fresh-id
counter, and the number of `onDreamComplete` calls. -/
structure HookM where
  mode : AIMode
  focusedSigil : Option ℕ
  timerRef : Option ℕ
  live : List (ℕ × TimerAct)
  fresh : ℕ
  dreams : ℕ
deriving DecidableEq, Repr

/-- `timerRef.current = setTimeout(...)`: a new live timeout, its id stored
in the ref. -/
def schedule (act : TimerAct) (m : HookM) : HookM :=
  { m with
    live := m.live ++ [(m.fresh, act)]
    timerRef := some m.fresh
    fresh := m.fresh + 1 }

/-- The effect cleanup `if (timerRef.current) clearTimeout(timerRef.current)`:
cancels the timeout whose id the ref holds (a no-op for an id that already
fired); the ref itself is not nulled by the source. -/
def clearRefTimer (m : HookM) : HookM :=
  match m.timerRef with
  | none => m
  | some id => { m with live := m.live.filter (fun t => t.1 ≠ id) }

/-- One call of `transitionToNextMode` on the hook state: the branch taken by
`transitionChoice`, with the chosen completion timer armed (or the idle
re-arm timer in the self-loop).  Returns the updated machine and whether
`setMode` changed the mode (queueing a re-render). -/
def runTransition (p : AIProbs) (energy curiosity : ℚ) (rand : ℚ) (m : HookM) :
    HookM × Bool :=
  if m.mode = .idle then
    if energy < 30 ∧ rand < p.idleToDream then
      (schedule .dreamEnd { m with mode := .dreaming }, true)
    else if rand < p.idleToObserve then
      (schedule .observeEnd { m with mode := .observing }, true)
    else if curiosity > 40 ∧ rand < p.idleToFocus + p.idleToObserve then
      (schedule .focusToPlay { m with mode := .focusing }, true)
    else (schedule .rearm m, false)
  else (schedule .rearm m, false)

/-- The React commit that follows a callback in which `setMode` changed the
mode.  State updates made inside an effect body or a timer callback are
applied after the callback completes; the effect with dependency `mode` then
re-runs: first the previous effect's cleanup (`clearTimeout` on the ref),
then the new body, which calls `transitionToNextMode` only when the new mode
is `idle`.  A nested mode change started from `idle` always targets a
non-idle mode, whose effect body does nothing beyond the cleanup, so the
nesting terminates at depth two. -/
def commitAfter (p : AIProbs) (energy curiosity : ℚ) (rand2 : ℚ)
    (changed : Bool) (m : HookM) : HookM :=
  if changed then
    let m1 := clearRefTimer m
    if m1.mode = .idle then
      let st := runTransition p energy curiosity rand2 m1
      if st.2 then clearRefTimer st.1 else st.1
    else m1
  else m

/-- Component mount: the hook starts in `idle` with no timers; the effect
body runs `transitionToNextMode()` with the first draw, and the resulting
state updates are then committed (a second draw provided for a possible
nested transition). -/
def mount (p : AIProbs) (energy curiosity : ℚ) (rand1 rand2 : ℚ) : HookM :=
  let m0 : HookM :=
    { mode := .idle, focusedSigil := none, timerRef := none, live := [],
      fresh := 0, dreams := 0 }
  let st := runTransition p energy curiosity rand1 m0
  commitAfter p energy curiosity rand2 st.2 st.1

/-- A timeout with id `id` firing: if it is still live it is removed and its
callback body runs (with the draws it makes), followed by the commit of any
mode change; firing an id that is not live is a no-op. -/
def fireTimer (p : AIProbs) (energy curiosity : ℚ) (sigils : List ℕ) (id : ℕ)
    (rand1 rand2 rand3 : ℚ) (m : HookM) : HookM :=
  match m.live.find? (fun t => t.1 = id) with
  | none => m
  | some ta =>
    let m0 := { m with live := m.live.filter (fun t => t.1 ≠ id) }
    match ta.2 with
    | .rearm =>
      let st := runTransition p energy curiosity rand1 m0
      commitAfter p energy curiosity rand2 st.2 st.1
    | .dreamEnd =>
      commitAfter p energy curiosity rand2 true
        { m0 with mode := .idle, dreams := m0.dreams + 1 }
    | .observeEnd =>
      commitAfter p energy curiosity rand2 true { m0 with mode := .idle }
    | .focusToPlay =>
      let idx := (⌊rand3 * (sigils.length : ℚ)⌋).toNat
      let m1 :=
        match sigils.get? idx with
        | some sid => { m0 with mode := .playing, focusedSigil := some sid }
        | none => { m0 with mode := .playing }
      commitAfter p energy curiosity rand2 true (schedule .playEnd m1)
    | .playEnd =>
      commitAfter p energy curiosity rand2 true
        { m0 with mode := .idle, focusedSigil := none }

end Behavior

-- ===== Helper theorems =====

namespace MossPrime

/-- Correctness of the fast-doubling recursion: `fibPair k` is the pair
`(F k, F (k+1))` of Fibonacci numbers. -/
theorem fibPair_eq (k : ℕ) :
    fibPair k = ((Nat.fib k : ℤ), (Nat.fib (k + 1) : ℤ)) := by
  induction k using Nat.strong_induction_on with
  | _ k ih =>
    rcases eq_or_ne k 0 with hk | hk
    · subst hk
      rw [fibPair]
      simp
    · have hlt : k / 2 < k := Nat.div_lt_self (Nat.pos_of_ne_zero hk) one_lt_two
      rw [fibPair, dif_neg hk, ih (k / 2) hlt]
      have hle : Nat.fib (k / 2) ≤ 2 * Nat.fib (k / 2 + 1) := by
        have := Nat.fib_le_fib_succ (n := k / 2)
        omega
      have heven : ∀ m : ℕ, (Nat.fib (2 * m) : ℤ) =
          (Nat.fib m : ℤ) * (2 * (Nat.fib (m + 1) : ℤ) - (Nat.fib m : ℤ)) := by
        intro m
        have h := Nat.fib_le_fib_succ (n := m)
        rw [Nat.fib_two_mul, Nat.cast_mul, Nat.cast_sub (by omega)]
        push_cast
        ring
      have hodd : ∀ m : ℕ, (Nat.fib (2 * m + 1) : ℤ) =
          (Nat.fib m : ℤ) * (Nat.fib m : ℤ) +
          (Nat.fib (m + 1) : ℤ) * (Nat.fib (m + 1) : ℤ) := by
        intro m
        rw [Nat.fib_two_mul_add_one]
        push_cast
        ring
      rcases Nat.even_or_odd k with he | ho
      · have hmod : k % 2 = 0 := Nat.even_iff.mp he
        have hk2 : k = 2 * (k / 2) := by omega
        have hk3 : k + 1 = 2 * (k / 2) + 1 := by omega
        have e1 : (Nat.fib k : ℤ) = (Nat.fib (k / 2) : ℤ) *
            (2 * (Nat.fib (k / 2 + 1) : ℤ) - (Nat.fib (k / 2) : ℤ)) := by
          conv_lhs => rw [hk2]
          exact heven (k / 2)
        have e2 : (Nat.fib (k + 1) : ℤ) = (Nat.fib (k / 2) : ℤ) * (Nat.fib (k / 2) : ℤ) +
            (Nat.fib (k / 2 + 1) : ℤ) * (Nat.fib (k / 2 + 1) : ℤ) := by
          conv_lhs => rw [hk3]
          exact hodd (k / 2)
        rw [if_pos hmod]
        refine Prod.ext ?_ ?_
        · dsimp only
          rw [e1]
        · dsimp only
          rw [e2]
      · have hmod : ¬ (k % 2 = 0) := by
          have := Nat.odd_iff.mp ho
          omega
        have hk2 : k = 2 * (k / 2) + 1 := by
          have := Nat.odd_iff.mp ho
          omega
        have hk3 : k + 1 = 2 * (k / 2 + 1) := by omega
        have e3 : (Nat.fib k : ℤ) = (Nat.fib (k / 2) : ℤ) * (Nat.fib (k / 2) : ℤ) +
            (Nat.fib (k / 2 + 1) : ℤ) * (Nat.fib (k / 2 + 1) : ℤ) := by
          conv_lhs => rw [hk2]
          exact hodd (k / 2)
        have h6 : Nat.fib (k / 2 + 1 + 1) = Nat.fib (k / 2) + Nat.fib (k / 2 + 1) := by
          have h7 : k / 2 + 1 + 1 = k / 2 + 2 := by omega
          rw [h7, Nat.fib_add_two]
        have e4 : (Nat.fib (k + 1) : ℤ) = (Nat.fib (k / 2) : ℤ) *
            (2 * (Nat.fib (k / 2 + 1) : ℤ) - (Nat.fib (k / 2) : ℤ)) +
            ((Nat.fib (k / 2) : ℤ) * (Nat.fib (k / 2) : ℤ) +
             (Nat.fib (k / 2 + 1) : ℤ) * (Nat.fib (k / 2 + 1) : ℤ)) := by
          have h5 : (Nat.fib (k + 1) : ℤ) = (Nat.fib (k / 2 + 1) : ℤ) *
              (2 * (Nat.fib (k / 2 + 1 + 1) : ℤ) - (Nat.fib (k / 2 + 1) : ℤ)) := by
            conv_lhs => rw [hk3]
            exact heven (k / 2 + 1)
          rw [h5, h6]
          push_cast
          ring
        rw [if_neg hmod]
        refine Prod.ext ?_ ?_
        · dsimp only
          rw [e3]
        · dsimp only
          rw [e4]

end MossPrime

namespace Js

theorem rem_nonneg_lt (x m : ℚ) (hx : 0 ≤ x) (hm : 0 < m) :
    0 ≤ rem x m ∧ rem x m < m := by
  have hq : 0 ≤ x / m := div_nonneg hx hm.le
  have htr : trunc (x / m) = ⌊x / m⌋ := if_pos hq
  have hxm : m * (x / m) = x := by
    field_simp
  have hfr : rem x m = m * Int.fract (x / m) := by
    rw [rem, htr, Int.fract]
    rw [mul_sub, hxm]
  constructor
  · rw [hfr]
    exact mul_nonneg hm.le (Int.fract_nonneg _)
  · rw [hfr]
    calc m * Int.fract (x / m) < m * 1 := by
          exact (mul_lt_mul_left hm).mpr (Int.fract_lt_one _)
      _ = m := mul_one m

end Js

namespace MossPrime

theorem advance_seedBI (f : Field) : (advance f).seedBI = f.seedBI := rfl

theorem iterate_advance_seedBI (k : ℕ) (f : Field) :
    (advance^[k] f).seedBI = f.seedBI := by
  induction k generalizing f with
  | zero => rfl
  | succ k ih =>
    rw [Function.iterate_succ_apply, ih, advance_seedBI]

theorem hash_only_reads_seedBI (f g : Field) (msg : String)
    (h : f.seedBI = g.seedBI) : (hash f msg).1 = (hash g msg).1 := by
  simp only [hash, h]

end MossPrime

/-- Claim C1: two independently constructed Fields with the same name have
equal `pulse` arrays, equal `ring` arrays and, for every message, equal
`hash(msg)` results; `hash` mutates no state (it returns the Field
unchanged and its result is invariant under any number of interleaved
`prng()` calls), and it computes over integers only (its result type in
this embedding is `Nat`). -/
theorem C1_field_determinism_hash_pure (name msg : String) (k : ℕ) :
    (MossPrime.initField name).pulse = (MossPrime.initField name).pulse ∧
    (MossPrime.initField name).ring = (MossPrime.initField name).ring ∧
    (MossPrime.hash (MossPrime.initField name) msg).1 =
      (MossPrime.hash (MossPrime.initField name) msg).1 ∧
    (MossPrime.hash (MossPrime.initField name) msg).2 = MossPrime.initField name ∧
    (MossPrime.hash (MossPrime.advance^[k] (MossPrime.initField name)) msg).1 =
      (MossPrime.hash (MossPrime.initField name) msg).1 := by
  refine ⟨rfl, rfl, rfl, rfl, ?_⟩
  exact MossPrime.hash_only_reads_seedBI _ _ msg
    (MossPrime.iterate_advance_seedBI k (MossPrime.initField name))

/-- The concrete internal PRNG state exhibiting the `Number` rounding bug:
with `s0 = 16158779262110245372` and `s1 = 0`, the xorshift step produces
the 64-bit sum `2^64 - 1`, whose conversion to a double rounds up to
`2^64`. -/
def prngOnePointField : MossPrime.Field :=
  { MossPrime.initField "AURALIA" with s0 := 16158779262110245372, s1 := 0 }

/-- Claim C2 (failing-input evaluation): at the internal state
`(s0, s1) = (16158779262110245372, 0)` a `prng()` call returns exactly `1`,
not a value strictly below `1`: the 64-bit sum is `2^64 - 1`, and the
JavaScript `Number(sum)` conversion rounds it up to `2^64` before the
division by `2^64`.  This contradicts the documented contract
"returns float in [0, 1)" of the source. -/
theorem C2_prng_returns_one_at_state : (MossPrime.prng prngOnePointField).1 = 1 := by
  have h1 : (prngOnePointField.s1 +
      (((prngOnePointField.s0 ^^^ (prngOnePointField.s0 <<< 23)) ^^^
        ((prngOnePointField.s0 ^^^ (prngOnePointField.s0 <<< 23)) >>> 17)) ^^^
        (prngOnePointField.s1 ^^^ (prngOnePointField.s1 >>> 26)))) % 2 ^ 64 =
      18446744073709551615 := by decide
  have h2 : MossPrime.jsNumberOfNat 18446744073709551615 = 18446744073709551616 := by
    decide
  show (MossPrime.jsNumberOfNat ((prngOnePointField.s1 +
      (((prngOnePointField.s0 ^^^ (prngOnePointField.s0 <<< 23)) ^^^
        ((prngOnePointField.s0 ^^^ (prngOnePointField.s0 <<< 23)) >>> 17)) ^^^
        (prngOnePointField.s1 ^^^ (prngOnePointField.s1 >>> 26)))) % 2 ^ 64) : ℚ) /
      18446744073709551616 = 1
  rw [h1, h2]
  norm_num

/-- Bounds for one genome component `min 100 ((...) % 100)` given a
nonnegative weighted sum. -/
theorem genome_component_bounds (x : ℚ) (hx : 0 ≤ x) :
    0 ≤ min 100 (Js.rem x 100) ∧ min 100 (Js.rem x 100) ≤ 100 := by
  obtain ⟨h1, _⟩ := Js.rem_nonneg_lt x 100 hx (by norm_num)
  exact ⟨le_min (by norm_num) h1, min_le_left _ _⟩

/-- Claim C4: for every Field and vitals in `[0,100]`, the three derived
genome scalars `red60`, `blue60`, `black60` of `computeGenome` lie in
`[0,100]`. -/
theorem C4_genome_bounds (f : MossPrime.Field) (energy curiosity bond health : ℚ)
    (hE : 0 ≤ energy ∧ energy ≤ 100) (hC : 0 ≤ curiosity ∧ curiosity ≤ 100)
    (hB : 0 ≤ bond ∧ bond ≤ 100) (hH : 0 ≤ health ∧ health ≤ 100) :
    (0 ≤ (AuraliaApp.computeGenome f energy curiosity bond health).1 ∧
      (AuraliaApp.computeGenome f energy curiosity bond health).1 ≤ 100) ∧
    (0 ≤ (AuraliaApp.computeGenome f energy curiosity bond health).2.1 ∧
      (AuraliaApp.computeGenome f energy curiosity bond health).2.1 ≤ 100) ∧
    (0 ≤ (AuraliaApp.computeGenome f energy curiosity bond health).2.2 ∧
      (AuraliaApp.computeGenome f energy curiosity bond health).2.2 ≤ 100) := by
  have hp : (0 : ℚ) ≤ (((f.pulse.take 20).sum : ℕ) : ℚ) := Nat.cast_nonneg _
  have hr : (0 : ℚ) ≤ (((f.ring.take 20).sum : ℕ) : ℚ) := Nat.cast_nonneg _
  have hh : (0 : ℚ) ≤ 100 - health := by linarith [hH.2]
  refine ⟨?_, ?_, ?_⟩
  · exact genome_component_bounds _ (by
      have t1 : (0 : ℚ) ≤ (((f.pulse.take 20).sum : ℕ) : ℚ) * 1.2 :=
        mul_nonneg hp (by norm_num)
      have t2 : (0 : ℚ) ≤ energy * 0.7 := mul_nonneg hE.1 (by norm_num)
      have t3 : (0 : ℚ) ≤ (100 - health) * 0.3 := mul_nonneg hh (by norm_num)
      linarith)
  · exact genome_component_bounds _ (by
      have t1 : (0 : ℚ) ≤ (((f.ring.take 20).sum : ℕ) : ℚ) * 1.1 :=
        mul_nonneg hr (by norm_num)
      have t2 : (0 : ℚ) ≤ curiosity * 0.6 := mul_nonneg hC.1 (by norm_num)
      have t3 : (0 : ℚ) ≤ bond * 0.5 := mul_nonneg hB.1 (by norm_num)
      linarith)
  · exact genome_component_bounds _ (by
      have t1 : (0 : ℚ) ≤ ((((f.pulse.take 20).sum : ℕ) : ℚ) +
          (((f.ring.take 20).sum : ℕ) : ℚ)) * 0.8 :=
        mul_nonneg (by linarith) (by norm_num)
      have t2 : (0 : ℚ) ≤ energy * 0.4 := mul_nonneg hE.1 (by norm_num)
      have t3 : (0 : ℚ) ≤ bond * 0.6 := mul_nonneg hB.1 (by norm_num)
      linarith)

/-- Witness for C4: genome bounds at the Field for name `AURALIA` and vitals
`(50, 50, 50, 50)`. -/
theorem C4_genome_bounds_witness :
    ((0 : ℚ) ≤ 50 ∧ (50 : ℚ) ≤ 100) ∧
    ((0 ≤ (AuraliaApp.computeGenome (MossPrime.initField "AURALIA") 50 50 50 50).1 ∧
      (AuraliaApp.computeGenome (MossPrime.initField "AURALIA") 50 50 50 50).1 ≤ 100) ∧
    (0 ≤ (AuraliaApp.computeGenome (MossPrime.initField "AURALIA") 50 50 50 50).2.1 ∧
      (AuraliaApp.computeGenome (MossPrime.initField "AURALIA") 50 50 50 50).2.1 ≤ 100) ∧
    (0 ≤ (AuraliaApp.computeGenome (MossPrime.initField "AURALIA") 50 50 50 50).2.2 ∧
      (AuraliaApp.computeGenome (MossPrime.initField "AURALIA") 50 50 50 50).2.2 ≤ 100)) :=
  ⟨⟨by norm_num, by norm_num⟩,
    C4_genome_bounds (MossPrime.initField "AURALIA") 50 50 50 50
      ⟨by norm_num, by norm_num⟩ ⟨by norm_num, by norm_num⟩
      ⟨by norm_num, by norm_num⟩ ⟨by norm_num, by norm_num⟩⟩

/-- Claim C10: the `pulse` and `ring` arrays of a Field do not depend on the
seed name at all, and consequently the breeding partner's genome (derived in
`breedGuardian` from the partner Field's pulse/ring sums alone) is the same
for every partner name. -/
theorem C10_pulse_ring_name_independent (n1 n2 : String) :
    (MossPrime.initField n1).pulse = (MossPrime.initField n2).pulse ∧
    (MossPrime.initField n1).ring = (MossPrime.initField n2).ring ∧
    AuraliaApp.partnerGenome n1 = AuraliaApp.partnerGenome n2 :=
  ⟨rfl, rfl, rfl⟩

/-- Claim C3: `fib` and `lucas` return the exact Fibonacci/Lucas values on the
given sample points, and for every `n ≤ 0`, `fibFast n` returns `(0, 1)`
(so `fib n = 0` and `lucas n = 2` for nonpositive `n`), with no error. -/
theorem C3_fib_lucas_values :
    MossPrime.fib 0 = 0 ∧ MossPrime.fib 1 = 1 ∧ MossPrime.fib 2 = 1 ∧
    MossPrime.fib 10 = 55 ∧ MossPrime.fib 20 = 6765 ∧
    MossPrime.lucas 0 = 2 ∧ MossPrime.lucas 1 = 1 ∧
    MossPrime.lucas 6 = 18 ∧ MossPrime.lucas 8 = 47 ∧
    (∀ n : ℤ, n ≤ 0 → MossPrime.fibFast n = (0, 1) ∧
      MossPrime.fib n = 0 ∧ MossPrime.lucas n = 2) := by
  have hfib : ∀ m : ℕ, MossPrime.fib (m : ℤ) = (Nat.fib m : ℤ) := by
    intro m
    simp [MossPrime.fib, MossPrime.fibFast, MossPrime.fibPair_eq]
  have hluc : ∀ m : ℕ, m ≠ 0 →
      MossPrime.lucas (m : ℤ) = 2 * (Nat.fib (m + 1) : ℤ) - (Nat.fib m : ℤ) := by
    intro m hm
    have : ((m : ℤ) = 0) = False := by simp [hm]
    simp [MossPrime.lucas, MossPrime.fibFast, MossPrime.fibPair_eq, hm]
  refine ⟨?_, ?_, ?_, ?_, ?_, ?_, ?_, ?_, ?_, ?_⟩
  · simpa using hfib 0
  · simpa using hfib 1
  · have := hfib 2
    norm_num at this
    simpa using this
  · have := hfib 10
    norm_num [Nat.fib] at this ⊢
    simpa [show ((10 : ℕ) : ℤ) = 10 by norm_num] using this
  · have := hfib 20
    simpa [show ((20 : ℕ) : ℤ) = 20 by norm_num] using this
  · simp [MossPrime.lucas]
  · have := hluc 1 (by norm_num)
    simpa using this
  · have := hluc 6 (by norm_num)
    simpa [show ((6 : ℕ) : ℤ) = 6 by norm_num] using this
  · have := hluc 8 (by norm_num)
    simpa [show ((8 : ℕ) : ℤ) = 8 by norm_num] using this
  · intro n hn
    have h0 : (max 0 n).toNat = 0 := by omega
    have hfp : MossPrime.fibFast n = (0, 1) := by
      unfold MossPrime.fibFast
      rw [h0, MossPrime.fibPair]
      simp
    have hmax : max 0 n = 0 := by omega
    have hfp0 : MossPrime.fibFast (max 0 n) = (0, 1) := by
      rw [hmax]
      unfold MossPrime.fibFast
      rw [MossPrime.fibPair]
      simp
    refine ⟨hfp, ?_, ?_⟩
    · simp [MossPrime.fib, hfp]
    · unfold MossPrime.lucas
      by_cases h : n = 0
      · simp [h]
      · simp [h, hfp0]

/-- Witness for C3: the nonpositive-input clause at the concrete input `-5`. -/
theorem C3_fib_lucas_values_witness :
    (-5 : ℤ) ≤ 0 ∧ MossPrime.fibFast (-5) = (0, 1) ∧
      MossPrime.fib (-5) = 0 ∧ MossPrime.lucas (-5) = 2 := by
  have h := C3_fib_lucas_values.2.2.2.2.2.2.2.2.2 (-5) (by norm_num)
  exact ⟨by norm_num, h.1, h.2.1, h.2.2⟩

/-- Claim C5: the branch structure of the behavior state machine.  From
`idle`, with draw `r`: dreaming is entered iff `energy < 30` and
`r < P(idle→dream)`; the dream-end timer only returns to idle and fires
`onDreamComplete`; otherwise observing is entered iff `r < P(idle→observe)`;
otherwise focusing is entered iff `curiosity > 40` and
`r < P(idle→focus) + P(idle→observe)`, in which case the focus timer moves
to playing with the sigil point of index `floor(r2 * length)` as focus,
firing `onFocusChange` and `onPlay`, and the play-end timer clears the focus
and returns to idle; otherwise the machine stays idle and re-arms.  From any
non-idle mode no transition is evaluated (only the re-arm timer is set). -/
theorem C5_state_machine_structure (p : Behavior.AIProbs) (e c r : ℚ) :
    (((Behavior.transitionChoice p e c .idle r).1 = .dreaming) ↔
      (e < 30 ∧ r < p.idleToDream)) ∧
    (e < 30 ∧ r < p.idleToDream →
      Behavior.transitionChoice p e c .idle r = (.dreaming, .dreamEnd)) ∧
    (∀ (sigils : List ℕ) (rand : ℚ) (v : Behavior.AIView),
      Behavior.runTimerAct sigils .dreamEnd rand v =
        ({ v with mode := .idle },
         { dreamCompleteFired := true, focusChangeArg := none,
           playFired := false }, none)) ∧
    (¬ (e < 30 ∧ r < p.idleToDream) →
      (((Behavior.transitionChoice p e c .idle r).1 = .observing) ↔
        r < p.idleToObserve)) ∧
    (¬ (e < 30 ∧ r < p.idleToDream) → ¬ r < p.idleToObserve →
      (((Behavior.transitionChoice p e c .idle r).1 = .focusing) ↔
        (c > 40 ∧ r < p.idleToFocus + p.idleToObserve))) ∧
    (∀ (sigils : List ℕ) (rand : ℚ) (v : Behavior.AIView),
      0 ≤ rand → rand < 1 → sigils ≠ [] →
      ∃ sid, sigils.get? (⌊rand * (sigils.length : ℚ)⌋).toNat = some sid ∧
        Behavior.runTimerAct sigils .focusToPlay rand v =
          ({ mode := .playing, focusedSigil := some sid },
           { dreamCompleteFired := false, focusChangeArg := some (some sid),
             playFired := true }, some .playEnd)) ∧
    (∀ (sigils : List ℕ) (rand : ℚ) (v : Behavior.AIView),
      Behavior.runTimerAct sigils .playEnd rand v =
        ({ mode := .idle, focusedSigil := none },
         { dreamCompleteFired := false, focusChangeArg := some none,
           playFired := false }, none)) ∧
    (¬ (e < 30 ∧ r < p.idleToDream) → ¬ r < p.idleToObserve →
      ¬ (c > 40 ∧ r < p.idleToFocus + p.idleToObserve) →
      Behavior.transitionChoice p e c .idle r = (.idle, .rearm)) ∧
    (∀ m : Behavior.AIMode, m ≠ .idle →
      Behavior.transitionChoice p e c m r = (m, .rearm)) := by
  refine ⟨?_, ?_, ?_, ?_, ?_, ?_, ?_, ?_, ?_⟩
  · by_cases h : e < 30 ∧ r < p.idleToDream
    · simp [Behavior.transitionChoice, h]
    · simp only [Behavior.transitionChoice, if_pos rfl, if_neg h]
      refine iff_of_false ?_ h
      split_ifs <;> simp
  · intro h
    simp [Behavior.transitionChoice, h]
  · intro sigils rand v
    rfl
  · intro h
    simp only [Behavior.transitionChoice, if_pos rfl, if_neg h]
    by_cases h2 : r < p.idleToObserve
    · simp [h2]
    · simp only [if_neg h2]
      refine iff_of_false ?_ h2
      split_ifs <;> simp
  · intro h h2
    simp only [Behavior.transitionChoice, if_pos rfl, if_neg h, if_neg h2]
    by_cases h3 : c > 40 ∧ r < p.idleToFocus + p.idleToObserve
    · simp [h3]
    · simp only [if_neg h3]
      exact iff_of_false (by simp) h3
  · intro sigils rand v h0 h1 hne
    have hlen : 0 < sigils.length := List.length_pos.mpr hne
    have hlenq : (0 : ℚ) < (sigils.length : ℚ) := by exact_mod_cast hlen
    have hfl0 : 0 ≤ ⌊rand * (sigils.length : ℚ)⌋ :=
      Int.floor_nonneg.mpr (mul_nonneg h0 hlenq.le)
    have hflt : ⌊rand * (sigils.length : ℚ)⌋ < (sigils.length : ℤ) := by
      apply Int.floor_lt.mpr
      push_cast
      calc rand * (sigils.length : ℚ) < 1 * (sigils.length : ℚ) :=
            mul_lt_mul_of_pos_right h1 hlenq
        _ = (sigils.length : ℚ) := one_mul _
    have hidx : (⌊rand * (sigils.length : ℚ)⌋).toNat < sigils.length := by omega
    refine ⟨sigils.get ⟨_, hidx⟩, List.get?_eq_get hidx, ?_⟩
    simp only [Behavior.runTimerAct, List.get?_eq_get hidx]
  · intro sigils rand v
    rfl
  · intro h h2 h3
    simp [Behavior.transitionChoice, h, h2, h3]
  · intro m hm
    simp [Behavior.transitionChoice, hm]

/-- Witness for C5: the dreaming branch at the default probabilities, stats
`energy = 20`, `curiosity = 50` and draw `r = 1/20`. -/
theorem C5_state_machine_structure_witness :
    ((20 : ℚ) < 30 ∧ (1/20 : ℚ) < Behavior.defaultProbs.idleToDream) ∧
    Behavior.transitionChoice Behavior.defaultProbs 20 50 .idle (1/20) =
      (.dreaming, .dreamEnd) :=
  ⟨⟨by norm_num, by norm_num [Behavior.defaultProbs]⟩,
    (C5_state_machine_structure Behavior.defaultProbs 20 50 (1/20)).2.1
      ⟨by norm_num, by norm_num [Behavior.defaultProbs]⟩⟩

/-- Claim C6 (failing-trace evaluation): at mount with `energy = 20 < 30`,
`curiosity = 50` and first draw `1/20 < P(idle→dream) = 0.15`, the
transition enters `dreaming` and arms the dream-end timer, but the effect
cleanup triggered by that very mode change cancels the timer it just armed:
the machine ends in mode `dreaming` with no live timer and zero
`onDreamComplete` calls, and every further timer firing is a no-op, so the
machine never returns to idle — contradicting the claim that a timer armed
on state entry is not cancelled before it fires and that every entered
non-idle mode eventually transitions back to idle. -/
theorem C6_entry_cancels_armed_timer (r2 : ℚ) :
    (Behavior.mount Behavior.defaultProbs 20 50 (1/20) r2).mode = .dreaming ∧
    (Behavior.mount Behavior.defaultProbs 20 50 (1/20) r2).live = [] ∧
    (Behavior.mount Behavior.defaultProbs 20 50 (1/20) r2).dreams = 0 ∧
    (∀ (p : Behavior.AIProbs) (e c : ℚ) (sigils : List ℕ) (id : ℕ)
      (ra rb rc : ℚ),
      Behavior.fireTimer p e c sigils id ra rb rc
        (Behavior.mount Behavior.defaultProbs 20 50 (1/20) r2) =
        Behavior.mount Behavior.defaultProbs 20 50 (1/20) r2) := by
  have hm : Behavior.mount Behavior.defaultProbs 20 50 (1/20) r2 =
      { mode := .dreaming, focusedSigil := none, timerRef := some 0,
        live := [], fresh := 1, dreams := 0 } := by
    norm_num [Behavior.mount, Behavior.runTransition, Behavior.commitAfter,
      Behavior.schedule, Behavior.clearRefTimer, Behavior.defaultProbs,
      show (Behavior.AIMode.dreaming = Behavior.AIMode.idle) = False from by simp]
  rw [hm]
  refine ⟨rfl, rfl, rfl, ?_⟩
  intro p e c sigils id ra rb rc
  simp [Behavior.fireTimer]

/-- Claim C7: for the genome `{red60 := 90, blue60 := 40, black60 := 30}`,
`calculateEvolution` returns primary aspect `sun`, no secondary aspect
(`40 < 0.8 * 90`), and trait `chaotic` (the maximum absolute deviation from
the mean, `110/3 ≈ 36.7`, exceeds the threshold 30). -/
theorem C7_trinity_scenario :
    (Evolution.calculateEvolution ⟨90, 40, 30⟩).primaryAspect =
      Evolution.TrinityAspect.sun ∧
    (Evolution.calculateEvolution ⟨90, 40, 30⟩).secondaryAspect = none ∧
    (Evolution.calculateEvolution ⟨90, 40, 30⟩).trait =
      Evolution.EvolutionTrait.chaotic := by
  refine ⟨?_, ?_, ?_⟩ <;>
    norm_num [Evolution.calculateEvolution, Evolution.calculateTrinityAspect,
      Evolution.calculateSecondaryAspect, Evolution.calculateEvolutionTrait,
      Evolution.aspectValue, List.filter,
      show (decide (Evolution.TrinityAspect.shadow = Evolution.TrinityAspect.sun)) =
        false from rfl,
      show (decide (Evolution.TrinityAspect.void = Evolution.TrinityAspect.sun)) =
        false from rfl,
      abs_of_nonneg, abs_of_nonpos]

/-- Claim C8: `calculateEmotionalResponse` is a first-match cascade: any
vitals with `hunger > 80` give `yearning` regardless of everything else;
with `hunger ≤ 80`, `hygiene < 30` gives `overwhelmed` before any
mood/energy rule; and the vitals `{mood := 90, energy := 80, hunger := 20,
hygiene := 90}` give `ecstatic` for every personality traits input. -/
theorem C8_emotion_cascade :
    (∀ (v : Consciousness.GuardianStats) (t : Consciousness.PersonalityTraits),
      v.hunger > 80 → Consciousness.calculateEmotionalResponse v t = .yearning) ∧
    (∀ (v : Consciousness.GuardianStats) (t : Consciousness.PersonalityTraits),
      ¬ v.hunger > 80 → v.hygiene < 30 →
      Consciousness.calculateEmotionalResponse v t = .overwhelmed) ∧
    (∀ t : Consciousness.PersonalityTraits,
      Consciousness.calculateEmotionalResponse ⟨90, 80, 20, 90⟩ t = .ecstatic) := by
  refine ⟨?_, ?_, ?_⟩
  · intro v t h
    simp [Consciousness.calculateEmotionalResponse, h]
  · intro v t h1 h2
    simp [Consciousness.calculateEmotionalResponse, h1, h2]
  · intro t
    norm_num [Consciousness.calculateEmotionalResponse]

/-- Witness for C8: hungry vitals at a concrete traits record give
`yearning`. -/
theorem C8_emotion_cascade_witness :
    ((90 : ℚ) > 80) ∧
    Consciousness.calculateEmotionalResponse ⟨50, 50, 90, 50⟩
      ⟨50, 50, 50, 50, 50, 50, 50, "Calm"⟩ = .yearning :=
  ⟨by norm_num, C8_emotion_cascade.1 ⟨50, 50, 90, 50⟩
    ⟨50, 50, 50, 50, 50, 50, 50, "Calm"⟩ (by norm_num)⟩

/-- Bounds of the `mutate` helper: the clamp keeps every output in
`[0, 100]` whatever the draw. -/
theorem mutate_bounds (rv v : ℚ) :
    0 ≤ Evolution.mutate rv v ∧ Evolution.mutate rv v ≤ 100 := by
  unfold Evolution.mutate
  exact ⟨le_max_left 0 _, max_le (by norm_num) (min_le_left _ _)⟩

/-- `Math.round` of a value in `[0, 100]` stays in `[0, 100]`. -/
theorem round_cast_bounds (x : ℚ) (h0 : 0 ≤ x) (h1 : x ≤ 100) :
    0 ≤ ((Js.round x : ℤ) : ℚ) ∧ ((Js.round x : ℤ) : ℚ) ≤ 100 := by
  unfold Js.round
  constructor
  · have h : (0 : ℤ) ≤ ⌊x + 1/2⌋ := Int.floor_nonneg.mpr (by linarith)
    exact_mod_cast h
  · have h : ⌊x + 1/2⌋ < (101 : ℤ) := Int.floor_lt.mpr (by push_cast; linarith)
    have h2 : ⌊x + 1/2⌋ ≤ (100 : ℤ) := by omega
    exact_mod_cast h2

/-- Bounds of the rare-boost `min 100 (x + 10)` for nonnegative `x`. -/
theorem boost_bounds (x : ℚ) (h0 : 0 ≤ x) :
    0 ≤ min 100 (x + 10) ∧ min 100 (x + 10) ≤ 100 :=
  ⟨le_min (by norm_num) (by linarith), min_le_left _ _⟩

/-- Claim C9: for parents with every axis in `[0, 100]` and draws in
`[0, 1)`, each axis of the `breedGenomes` offspring lies in `[0, 100]`,
including when the rare boost applies at extreme parents. -/
theorem C9_breeding_bounds (p1 p2 : Evolution.BreedingGenome) (r0 r1 r2 r3 : ℚ)
    (hp1 : 0 ≤ p1.red60 ∧ p1.red60 ≤ 100 ∧ 0 ≤ p1.blue60 ∧ p1.blue60 ≤ 100 ∧
      0 ≤ p1.black60 ∧ p1.black60 ≤ 100)
    (hp2 : 0 ≤ p2.red60 ∧ p2.red60 ≤ 100 ∧ 0 ≤ p2.blue60 ∧ p2.blue60 ≤ 100 ∧
      0 ≤ p2.black60 ∧ p2.black60 ≤ 100)
    (hr0 : 0 ≤ r0 ∧ r0 < 1) (hr1 : 0 ≤ r1 ∧ r1 < 1)
    (hr2 : 0 ≤ r2 ∧ r2 < 1) (hr3 : 0 ≤ r3 ∧ r3 < 1) :
    (0 ≤ (Evolution.breedGenomes p1 p2 r0 r1 r2 r3).red60 ∧
      (Evolution.breedGenomes p1 p2 r0 r1 r2 r3).red60 ≤ 100) ∧
    (0 ≤ (Evolution.breedGenomes p1 p2 r0 r1 r2 r3).blue60 ∧
      (Evolution.breedGenomes p1 p2 r0 r1 r2 r3).blue60 ≤ 100) ∧
    (0 ≤ (Evolution.breedGenomes p1 p2 r0 r1 r2 r3).black60 ∧
      (Evolution.breedGenomes p1 p2 r0 r1 r2 r3).black60 ≤ 100) := by
  have hmr := mutate_bounds r0 ((p1.red60 + p2.red60) / 2)
  have hmb := mutate_bounds r1 ((p1.blue60 + p2.blue60) / 2)
  have hmk := mutate_bounds r2 ((p1.black60 + p2.black60) / 2)
  simp only [Evolution.breedGenomes]
  split_ifs with h1 h2 h3
  · exact ⟨round_cast_bounds _ (boost_bounds _ hmr.1).1 (boost_bounds _ hmr.1).2,
      round_cast_bounds _ hmb.1 hmb.2, round_cast_bounds _ hmk.1 hmk.2⟩
  · exact ⟨round_cast_bounds _ hmr.1 hmr.2,
      round_cast_bounds _ (boost_bounds _ hmb.1).1 (boost_bounds _ hmb.1).2,
      round_cast_bounds _ hmk.1 hmk.2⟩
  · exact ⟨round_cast_bounds _ hmr.1 hmr.2, round_cast_bounds _ hmb.1 hmb.2,
      round_cast_bounds _ (boost_bounds _ hmk.1).1 (boost_bounds _ hmk.1).2⟩
  · exact ⟨round_cast_bounds _ hmr.1 hmr.2, round_cast_bounds _ hmb.1 hmb.2,
      round_cast_bounds _ hmk.1 hmk.2⟩

/-- Witness for C9: both parents at the extreme `(100, 100, 100)`, mutation
draws `0` (the extreme `-15`) and boost draw `0` (the 5% boost applies). -/
theorem C9_breeding_bounds_witness :
    ((0 : ℚ) ≤ 0 ∧ (0 : ℚ) < 1) ∧
    ((0 ≤ (Evolution.breedGenomes ⟨100, 100, 100⟩ ⟨100, 100, 100⟩ 0 0 0 0).red60 ∧
      (Evolution.breedGenomes ⟨100, 100, 100⟩ ⟨100, 100, 100⟩ 0 0 0 0).red60 ≤ 100) ∧
    (0 ≤ (Evolution.breedGenomes ⟨100, 100, 100⟩ ⟨100, 100, 100⟩ 0 0 0 0).blue60 ∧
      (Evolution.breedGenomes ⟨100, 100, 100⟩ ⟨100, 100, 100⟩ 0 0 0 0).blue60 ≤ 100) ∧
    (0 ≤ (Evolution.breedGenomes ⟨100, 100, 100⟩ ⟨100, 100, 100⟩ 0 0 0 0).black60 ∧
      (Evolution.breedGenomes ⟨100, 100, 100⟩ ⟨100, 100, 100⟩ 0 0 0 0).black60 ≤ 100)) :=
  ⟨⟨le_refl 0, by norm_num⟩,
    C9_breeding_bounds ⟨100, 100, 100⟩ ⟨100, 100, 100⟩ 0 0 0 0
      (by norm_num) (by norm_num) (by norm_num) (by norm_num)
      (by norm_num) (by norm_num)⟩
